import Mathlib

/-!
Formal model of the Human-AI comparison experiment backend
(`backend/app`: `main.py`, `config_loader.py`, `exporter.py`, `models.py`,
`schemas.py`).  The request handlers are embedded as pure functions from an
explicit database state to `Except`-results; external inputs (fresh UUIDs,
clock, client metadata, the filesystem) are passed as arguments.  Python
dictionaries are modelled as association lists in insertion order, SQL tables
as Lean lists, and `DateTime` columns as natural numbers.
-/

namespace HumanAI

/-- Errors a request handler can produce: either a deliberate HTTP error
(modelling `fastapi.HTTPException(status_code, detail)`) or an uncaught Python
runtime error (AttributeError / TypeError / KeyError / StopIteration), which
FastAPI turns into a 500 response and which makes the per-request transaction
of `get_db_session` roll back. -/
inductive HErr where
  | http (status : Nat) (detail : String)
  | attributeError (msg : String)
  | typeError (msg : String)
  | keyError (msg : String)
  | stopIteration
deriving DecidableEq, Repr

/-- Association-list lookup in insertion order; models `dict.get` /
`dict[...]`-style lookup on a Python dict (first binding wins; the embedded
configs never bind a key twice). -/
def lookupA {α : Type} (l : List (String × α)) (k : String) : Option α :=
  match l with
  | [] => none
  | (k', v) :: rest => if k' = k then some v else lookupA rest k

/-- Python `str.strip()`: remove leading and trailing whitespace. -/
def pyStrip (s : String) : String :=
  ⟨((s.data.dropWhile Char.isWhitespace).reverse.dropWhile
      Char.isWhitespace).reverse⟩

/-- Python truthiness of an `Optional[str]`: `None` and the empty string are
falsy. -/
def truthyOptStr (o : Option String) : Bool :=
  match o with
  | none => false
  | some s => s ≠ ""

/-- One entry of a group's stage sequence (`config_loader.StageSequenceItem`). -/
structure StageSequenceItem where
  subset : String
  mode : String
  label : Option String
deriving DecidableEq, Repr

/-- A participant group (`config_loader.GroupConfig`). -/
structure GroupConfig where
  name : String
  per_item_seconds : Option Nat
  hard_timeout : Bool
  soft_timeout : Bool
  quota : Option Nat
  sequence : List StageSequenceItem
deriving DecidableEq, Repr

/-- A presentation mode (`config_loader.ModeConfig`). -/
structure ModeConfig where
  name : String
  task_markdown : String
  guidelines_markdown : String
  randomize : Bool
  per_item_seconds : Option Nat
  ai_enabled : Bool
deriving DecidableEq, Repr

/-- The value of one `image_dirs` entry (`config_loader.ImageDirConfig`,
`Union[str, dict[str, str]]`): a single path string or a language-keyed
mapping of path strings, kept in insertion order. -/
inductive ImageDirConfig where
  | single (path : String)
  | byLang (entries : List (String × String))
deriving DecidableEq, Repr

/-- An image subset (`config_loader.SubsetConfig`). -/
structure SubsetConfig where
  name : String
  description : Option String
  image_dirs : List (String × ImageDirConfig)
deriving DecidableEq, Repr

/-- The validated experiment configuration (`config_loader.ExperimentConfig`). -/
structure ExperimentConfig where
  batch_id : String
  groups : List (String × GroupConfig)
  modes : List (String × ModeConfig)
  subsets : List (String × SubsetConfig)
  default_per_item_seconds : Nat
  allow_resume : Bool
  participant_roles : List String
deriving DecidableEq, Repr

/-- A row of the `sessions` table (`models.SessionModel`); the autoincrement
surrogate keys of the other tables are not modelled.  Timestamps are natural
numbers. -/
structure SessionModel where
  session_id : String
  participant_id : String
  group_id : String
  mode_id : String
  participant_role : Option String
  batch_id : String
  started_at : Nat
  finished_at : Option Nat
  user_agent : Option String
  ip_hash : Option String
  total_elapsed_ms : Option Nat
deriving DecidableEq, Repr

/-- A row of the `items` table (`models.ItemModel`). -/
structure ItemModel where
  session_id : String
  image_id : String
  filename : String
  order_index : Nat
  subset_id : String
  stage_index : Nat
  mode_id : String
  ai_hint : Option String
deriving DecidableEq, Repr

/-- A row of the `records` table (`models.RecordModel`). -/
structure RecordModel where
  session_id : String
  image_id : String
  answer : String
  order_index : Option Nat
  elapsed_ms_item : Option Nat
  elapsed_ms_global : Option Nat
  skipped : Bool
  item_timeout : Bool
  ts_server : Nat
  ts_client : Option Nat
  user_agent : Option String
  ip_hash : Option String
  subset_id : Option String
  stage_index : Option Nat
  mode_id : Option String
deriving DecidableEq, Repr

/-- The relational store: the three tables the application uses. -/
structure Db where
  sessions : List SessionModel
  items : List ItemModel
  records : List RecordModel
deriving DecidableEq, Repr

/-- One entry of the item catalog, as produced by
`config_loader.list_subset_images` (the dicts built at its lines 165-174). -/
structure CatalogEntry where
  subset_id : String
  image_id : String
  filename : String
  relative_path : String
  title : String
  url : String
deriving DecidableEq, Repr

/-! ### Model of the standard-library pseudo-random generator

`main.start_session` creates `random.Random(f"{session_id}:{stage_index}")`
and calls its `shuffle`.  The Mersenne-Twister internals of `random.Random`
are standard-library code (an external collaborator of this repository); they
are modelled by a concrete deterministic generator whose initial state is a
pure function of the seed string and whose `shuffle` mirrors CPython's
Fisher-Yates loop (`for i in reversed(range(1, len(x))): j = _randbelow(i+1);
swap x[i], x[j]`).  Every theorem below uses only that the generator is a
deterministic function of the seed string, which is exactly what CPython
guarantees for a fixed library version. -/

/-- State of the modelled generator: a 64-bit word. -/
structure PyRandom where
  state : Nat
deriving DecidableEq, Repr

/-- Word size of the modelled generator state. -/
def u64 : Nat := 2 ^ 64

/-- Advance the generator and produce one pseudo-random word (a splitmix64-style
step standing in for `genrand` of the Mersenne Twister). -/
def pyRandomNext (r : PyRandom) : Nat × PyRandom :=
  let s := (r.state + 0x9E3779B97F4A7C15) % u64
  let z := s
  let z := ((z ^^^ (z >>> 30)) * 0xBF58476D1CE4E5B9) % u64
  let z := ((z ^^^ (z >>> 27)) * 0x94D049BB133111EB) % u64
  let z := z ^^^ (z >>> 31)
  (z, ⟨s⟩)

/-- Initial generator state for a string seed; models `random.Random(seed)`
for a `str` seed (CPython derives the Mersenne-Twister state from the seed's
bytes; only determinism in the string matters here). -/
def pyRandomOfSeed (seed : String) : PyRandom :=
  ⟨seed.data.foldl (fun a c => (a * 1099511628211 + c.toNat) % u64) 14695981039346656037⟩

/-- Models `random.Random._randbelow(n)`: one value in `[0, n)` together with
the advanced generator (`n` is positive at every call site). -/
def randbelow (r : PyRandom) (n : Nat) : Nat × PyRandom :=
  let (v, r') := pyRandomNext r
  (v % n, r')

/-- Swap the elements at positions `i` and `j` of a list (identity when either
index is out of range); models the tuple-swap in `random.shuffle`. -/
def listSwap {α : Type} (l : List α) (i j : Nat) : List α :=
  match l.get? i, l.get? j with
  | some a, some b => (l.set i b).set j a
  | _, _ => l

/-- The Fisher-Yates loop of `random.shuffle`, with `i` the current swap
index, counting down to `1`. -/
def pyShuffleGo {α : Type} (r : PyRandom) (l : List α) : Nat → List α × PyRandom
  | 0 => (l, r)
  | k + 1 =>
    let (j, r') := randbelow r (k + 2)
    pyShuffleGo r' (listSwap l (k + 1) j) k

/-- Models `random.shuffle(x)` on a generator `r`: shuffles the list in place,
returning the permuted list and the advanced generator. -/
def pyShuffle {α : Type} (r : PyRandom) (l : List α) : List α × PyRandom :=
  pyShuffleGo r l (l.length - 1)

/-- The seed string built at `main.py` line 265:
`f"{session_model.session_id}:{stage_index}"`. -/
def seed_string (session_id : String) (stage_index : Nat) : String :=
  session_id ++ ":" ++ Nat.repr stage_index

/-- The order in which one stage's catalog entries are materialized
(`main.py` lines 265-267): a generator seeded from
`seed_string session_id stage_index` shuffles the entries exactly when the
mode's `randomize` flag is set. -/
def stage_entry_order (session_id : String) (stage_index : Nat)
    (randomize : Bool) (entries : List CatalogEntry) : List CatalogEntry :=
  let stage_random := pyRandomOfSeed (seed_string session_id stage_index)
  if randomize then (pyShuffle stage_random entries).1 else entries

/-- Python `str.replace` for the single-character pattern used in the
source (`.replace("_", " ")`). -/
def pyReplaceChar (s : String) (a b : Char) : String :=
  ⟨s.data.map (fun c => if c = a then b else c)⟩

/-- Python `str.title()` restricted to its documented behaviour on the
alphanumeric identifiers used here: each alphabetic character is uppercased
when the previous character is not alphabetic and lowercased otherwise. -/
def pyTitle (s : String) : String :=
  let step : (Bool × List Char) → Char → (Bool × List Char) :=
    fun p c =>
      if c.isAlpha then
        (true, p.2 ++ [if p.1 then c.toLower else c.toUpper])
      else
        (false, p.2 ++ [c])
  ⟨(s.data.foldl step (false, [])).2⟩

/-- Per-stage metadata of the start-session response (`schemas.StageInfo`). -/
structure StageInfo where
  stage_index : Nat
  subset_id : String
  subset_name : String
  mode_id : String
  mode_name : String
  label : Option String
  ai_enabled : Bool
  task_markdown : String
  guidelines_markdown : String
  total_items : Nat
deriving DecidableEq, Repr

/-- One item of the start-session response (`schemas.SessionItem`). -/
structure SessionItem where
  stage_index : Nat
  subset_id : String
  mode_id : String
  image_id : String
  filename : String
  title : String
  order_index : Nat
  url : String
deriving DecidableEq, Repr

/-- The inner loop of `main.start_session` over one stage's (already ordered)
catalog entries (`main.py` lines 272-295): materialize an `ItemModel` and a
response `SessionItem` per entry, incrementing the running global
`order_index` once per item.  Returns the item rows, the response items and
the final counter value. -/
def materialize_entries (session_id : String) (stage : StageSequenceItem)
    (stage_index : Nat) :
    List CatalogEntry → Nat → List ItemModel × List SessionItem × Nat
  | [], order_index => ([], [], order_index)
  | entry :: rest, order_index =>
    let item : ItemModel :=
      { session_id, image_id := entry.image_id, filename := entry.relative_path,
        order_index, subset_id := stage.subset, stage_index,
        mode_id := stage.mode, ai_hint := none }
    let ritem : SessionItem :=
      { stage_index, subset_id := stage.subset, mode_id := stage.mode,
        image_id := entry.image_id, filename := entry.relative_path,
        title := entry.title, order_index, url := entry.url }
    let rec_rest := materialize_entries session_id stage stage_index rest (order_index + 1)
    (item :: rec_rest.1, ritem :: rec_rest.2.1, rec_rest.2.2)

/-- The stage loop of `main.start_session` (`main.py` lines 256-310), over the
enumerated stage sequence, threading the global `order_index`.  `catalog`
models `config_loader.list_subset_images` for the current configuration and
filesystem (a deterministic function of subset and mode).  Per stage: the
referenced mode and subset must be configured (400), the entries are ordered
by `stage_entry_order` (seeded shuffle when the mode randomizes), an empty
catalog fails with 404, and the surviving entries are materialized. -/
def generate_stages (cfg : ExperimentConfig) (session_id : String)
    (catalog : String → String → List CatalogEntry) :
    List (Nat × StageSequenceItem) → Nat →
    Except HErr (List ItemModel × List SessionItem × List StageInfo)
  | [], _ => .ok ([], [], [])
  | (stage_index, stage) :: rest, order_index =>
    match lookupA cfg.modes stage.mode with
    | none => .error (.http 400 ("Mode \x27" ++ stage.mode ++ "\x27 not configured"))
    | some mode_config =>
      match lookupA cfg.subsets stage.subset with
      | none => .error (.http 400 ("Subset \x27" ++ stage.subset ++ "\x27 not configured"))
      | some subset_config =>
        let entries :=
          stage_entry_order session_id stage_index mode_config.randomize
            (catalog stage.subset stage.mode)
        if entries = [] then
          .error (.http 404 ("Subset \x27" ++ stage.subset ++ "\x27 has no configured cases"))
        else
          let mat := materialize_entries session_id stage stage_index entries order_index
          let info : StageInfo :=
            { stage_index, subset_id := stage.subset,
              subset_name := subset_config.name, mode_id := stage.mode,
              mode_name := mode_config.name, label := stage.label,
              ai_enabled := mode_config.ai_enabled,
              task_markdown := mode_config.task_markdown,
              guidelines_markdown := mode_config.guidelines_markdown,
              total_items := entries.length }
          match generate_stages cfg session_id catalog rest mat.2.2 with
          | .error e => .error e
          | .ok res => .ok (mat.1 ++ res.1, mat.2.1 ++ res.2.1, info :: res.2.2)

/-- Item generation for a fresh session (`main.py` lines 251-312): run the
stage loop over the group's enumerated stage sequence with the global
`order_index` starting at `0`. -/
def generate_session_items (cfg : ExperimentConfig) (group_config : GroupConfig)
    (session_id : String) (catalog : String → String → List CatalogEntry) :
    Except HErr (List ItemModel × List SessionItem × List StageInfo) :=
  generate_stages cfg session_id catalog group_config.sequence.enum 0

theorem materialize_entries_order_map (sid : String) (st : StageSequenceItem)
    (si : Nat) :
    ∀ (entries : List CatalogEntry) (k : Nat),
      (materialize_entries sid st si entries k).1.map (·.order_index) =
        List.range' k entries.length := by
  intro entries
  induction entries with
  | nil => intro k; simp [materialize_entries]
  | cons e rest ih =>
    intro k
    simp [materialize_entries, List.range'_succ, ih]

theorem materialize_entries_counter (sid : String) (st : StageSequenceItem)
    (si : Nat) :
    ∀ (entries : List CatalogEntry) (k : Nat),
      (materialize_entries sid st si entries k).2.2 = k + entries.length := by
  intro entries
  induction entries with
  | nil => intro k; simp [materialize_entries]
  | cons e rest ih =>
    intro k
    simp [materialize_entries, ih]
    omega

theorem materialize_entries_length (sid : String) (st : StageSequenceItem)
    (si : Nat) (entries : List CatalogEntry) (k : Nat) :
    (materialize_entries sid st si entries k).1.length = entries.length := by
  have h := congrArg List.length (materialize_entries_order_map sid st si entries k)
  simpa using h

theorem generate_stages_order_map (cfg : ExperimentConfig) (sid : String)
    (catalog : String → String → List CatalogEntry) :
    ∀ (stages : List (Nat × StageSequenceItem)) (k : Nat)
      (items : List ItemModel) (ritems : List SessionItem)
      (infos : List StageInfo),
      generate_stages cfg sid catalog stages k = .ok (items, ritems, infos) →
      items.map (·.order_index) = List.range' k items.length := by
  intro stages
  induction stages with
  | nil =>
    intro k items ritems infos h
    simp [generate_stages] at h
    simp [h.1]
  | cons p rest ih =>
    intro k items ritems infos h
    obtain ⟨stage_index, stage⟩ := p
    simp only [generate_stages] at h
    split at h
    · exact absurd h (by simp)
    · split at h
      · exact absurd h (by simp)
      · split at h
        · exact absurd h (by simp)
        · split at h
          · exact absurd h (by simp)
          · rename_i mode_config _ subset_config _ _ res hres
            injection h with h'
            injection h' with hitems h''
            injection h'' with hritems hinfos
            subst hitems
            rw [List.map_append, materialize_entries_order_map,
              ih _ res.1 res.2.1 res.2.2 hres, List.length_append,
              materialize_entries_length, materialize_entries_counter]
            conv_rhs => rw [Nat.add_comm]
            exact List.range'_append_1 k _ _

/-- C3: for every successful run of fresh-session item generation
(`main.start_session`, lines 251-312), the order indices of the produced item
rows are exactly `0, 1, ..., n-1` in order: a contiguous, strictly increasing
sequence starting at `0` running across all stages combined, and no two items
of the session share an order index. -/
theorem order_indices_contiguous_across_stages (cfg : ExperimentConfig)
    (g : GroupConfig) (sid : String)
    (catalog : String → String → List CatalogEntry) (items : List ItemModel)
    (ritems : List SessionItem) (infos : List StageInfo)
    (h : generate_session_items cfg g sid catalog = .ok (items, ritems, infos)) :
    items.map (·.order_index) = List.range items.length ∧
      (items.map (·.order_index)).Nodup := by
  have horder := generate_stages_order_map cfg sid catalog g.sequence.enum 0
    items ritems infos h
  rw [← List.range_eq_range'] at horder
  exact ⟨horder, horder ▸ List.nodup_range _⟩

/-! ### Injectivity of the decimal rendering used in the seed string

`seed_string` interpolates the stage index with `Nat.repr`.  The lemmas below
show that decimal rendering is injective and produces no colon, so distinct
(session id, stage index) pairs with colon-free session ids produce distinct
seed strings. -/

/-- Decimal value of a digit character. -/
def digitVal (c : Char) : Nat := c.toNat - 48

/-- Parse a run of decimal digit characters, most significant first, onto an
accumulator. -/
def digitsVal (l : List Char) (a : Nat) : Nat :=
  l.foldl (fun a c => 10 * a + digitVal c) a

theorem digitVal_digitChar {n : Nat} (h : n < 10) :
    digitVal (Nat.digitChar n) = n := by
  interval_cases n <;> rfl

theorem digitsVal_cons (c : Char) (l : List Char) (a : Nat) :
    digitsVal (c :: l) a = digitsVal l (10 * a + digitVal c) := rfl

theorem toDigitsCore_val :
    ∀ (fuel n : Nat) (ds : List Char) (a : Nat), 0 < fuel → n < 10 ^ fuel →
      digitsVal (Nat.toDigitsCore 10 fuel n ds) a =
        digitsVal ds (a * 10 ^ (Nat.log 10 n + 1) + n) := by
  intro fuel
  induction fuel with
  | zero => intro n ds a h; exact absurd h (by omega)
  | succ fuel ih =>
    intro n ds a _ hlt
    simp only [Nat.toDigitsCore]
    by_cases hdiv : n / 10 = 0
    · have hn : n < 10 := by omega
      have hlog : Nat.log 10 n = 0 := Nat.log_eq_zero_iff.mpr (Or.inl hn)
      rw [if_pos hdiv, digitsVal_cons, digitVal_digitChar (Nat.mod_lt _ (by norm_num)),
        Nat.mod_eq_of_lt hn, hlog]
      congr 1
      ring
    · have hfuel : 0 < fuel := by
        rcases Nat.eq_zero_or_pos fuel with h0 | h
        · subst h0; simp at hlt; omega
        · exact h
      have hlt' : n / 10 < 10 ^ fuel := by
        rw [pow_succ] at hlt
        exact (Nat.div_lt_iff_lt_mul (by norm_num)).mpr hlt
      rw [if_neg hdiv, ih (n / 10) _ a hfuel hlt', digitsVal_cons,
        digitVal_digitChar (Nat.mod_lt _ (by norm_num))]
      congr 1
      have hge : 10 ≤ n := by omega
      have hlogpos : 0 < Nat.log 10 n := Nat.log_pos (by norm_num) hge
      have hlogdiv : Nat.log 10 (n / 10) = Nat.log 10 n - 1 := Nat.log_div_base 10 n
      have hlogeq : Nat.log 10 (n / 10) + 1 = Nat.log 10 n := by omega
      rw [← hlogeq, pow_succ (10 : Nat) (Nat.log 10 (n / 10) + 1)]
      have hdm : 10 * (n / 10) + n % 10 = n := Nat.div_add_mod n 10
      generalize (10 : Nat) ^ (Nat.log 10 (n / 10) + 1) = X
      have h2 : 10 * (a * X) = a * (X * 10) := by ring
      omega

theorem toDigits_val (n : Nat) : digitsVal (Nat.toDigits 10 n) 0 = n := by
  have hlt : n < 10 ^ (n + 1) :=
    lt_of_lt_of_le (Nat.lt_pow_self (by norm_num) n)
      (Nat.pow_le_pow_right (by norm_num) (Nat.le_succ n))
  rw [Nat.toDigits, toDigitsCore_val (n + 1) n [] 0 (Nat.succ_pos n) hlt]
  simp [digitsVal]

theorem nat_repr_inj {m n : Nat} (h : Nat.repr m = Nat.repr n) : m = n := by
  have hd : Nat.toDigits 10 m = Nat.toDigits 10 n := by
    have := congrArg String.data h
    simpa [Nat.repr, List.asString] using this
  have := congrArg (fun l => digitsVal l 0) hd
  simpa [toDigits_val] using this

theorem toDigitsCore_mem :
    ∀ (fuel n : Nat) (ds : List Char) (c : Char),
      c ∈ Nat.toDigitsCore 10 fuel n ds →
      c ∈ ds ∨ ∃ k, k < 10 ∧ c = Nat.digitChar k := by
  intro fuel
  induction fuel with
  | zero => intro n ds c h; exact Or.inl h
  | succ fuel ih =>
    intro n ds c h
    simp only [Nat.toDigitsCore] at h
    by_cases hdiv : n / 10 = 0
    · rw [if_pos hdiv] at h
      rcases List.mem_cons.mp h with h | h
      · exact Or.inr ⟨n % 10, Nat.mod_lt _ (by norm_num), h⟩
      · exact Or.inl h
    · rw [if_neg hdiv] at h
      rcases ih (n / 10) _ c h with h | h
      · rcases List.mem_cons.mp h with h | h
        · exact Or.inr ⟨n % 10, Nat.mod_lt _ (by norm_num), h⟩
        · exact Or.inl h
      · exact Or.inr h

theorem colon_not_mem_repr (n : Nat) : ':' ∉ (Nat.repr n).data := by
  intro hmem
  have hmem' : ':' ∈ Nat.toDigits 10 n := by
    simpa [Nat.repr, List.asString] using hmem
  rcases toDigitsCore_mem (n + 1) n [] ':' hmem' with h | ⟨k, hk, he⟩
  · simp at h
  · interval_cases k <;> exact absurd he (by decide)

theorem first_sep_inj {c : Char} :
    ∀ (l₁ l₂ m₁ m₂ : List Char), c ∉ l₁ → c ∉ l₂ →
      l₁ ++ c :: m₁ = l₂ ++ c :: m₂ → l₁ = l₂ ∧ m₁ = m₂ := by
  intro l₁
  induction l₁ with
  | nil =>
    intro l₂ m₁ m₂ _ h2 he
    cases l₂ with
    | nil => simpa using he
    | cons b t =>
      simp only [List.nil_append, List.cons_append, List.cons.injEq] at he
      exact absurd (he.1 ▸ List.mem_cons_self b t) h2
  | cons a t ih =>
    intro l₂ m₁ m₂ h1 h2 he
    cases l₂ with
    | nil =>
      simp only [List.cons_append, List.nil_append, List.cons.injEq] at he
      exact absurd (he.1 ▸ List.mem_cons_self a t) h1
    | cons b t₂ =>
      simp only [List.cons_append, List.cons.injEq] at he
      have hrest := ih t₂ m₁ m₂ (fun hm => h1 (List.mem_cons_of_mem a hm))
        (fun hm => h2 (List.mem_cons_of_mem b hm)) he.2
      exact ⟨by rw [he.1, hrest.1], hrest.2⟩

theorem seed_string_inj {sid sid' : String} {i i' : Nat}
    (h1 : ':' ∉ sid.data) (h2 : ':' ∉ sid'.data)
    (he : seed_string sid i = seed_string sid' i') : sid = sid' ∧ i = i' := by
  have hd := congrArg String.data he
  simp only [seed_string, String.data_append] at hd
  have hd' : sid.data ++ ':' :: (Nat.repr i).data
      = sid'.data ++ ':' :: (Nat.repr i').data := by
    simpa using hd
  have hsplit := first_sep_inj sid.data sid'.data _ _ h1 h2 hd'
  refine ⟨?_, nat_repr_inj (String.ext hsplit.2 : Nat.repr i = Nat.repr i')⟩
  exact String.ext hsplit.1

/-- C2: the ordering a stage's catalog entries receive when the mode has
`randomize = true` is produced by a pseudo-random generator seeded from the
string built out of the pair (session id, stage index) (`main.py` lines
265-267); the procedure is a pure function of that pair and the entry list,
so two runs with the same session id and stage index over the same entries
give the same ordering, and distinct (session id, stage index) pairs (with
colon-free session ids, as the UUID session ids are) build distinct seed
strings, hence independently seeded generators. -/
theorem stage_shuffle_seeded_and_deterministic (sid sid' : String) (i i' : Nat)
    (entries : List CatalogEntry) :
    stage_entry_order sid i true entries
        = (pyShuffle (pyRandomOfSeed (seed_string sid i)) entries).1
    ∧ (seed_string sid i = seed_string sid' i' →
        stage_entry_order sid i true entries
          = stage_entry_order sid' i' true entries)
    ∧ (':' ∉ sid.data → ':' ∉ sid'.data → (sid, i) ≠ (sid', i') →
        seed_string sid i ≠ seed_string sid' i') := by
  refine ⟨rfl, fun h => by simp only [stage_entry_order, h], ?_⟩
  intro h1 h2 hne he
  have := seed_string_inj h1 h2 he
  exact hne (by rw [this.1, this.2])

/-- Concrete instantiation of the C2 theorem: stages 0 and 1 of session
"a0b1" get different seed strings, and the seeded ordering of a two-element
catalog is reproducible. -/
theorem stage_shuffle_seeded_and_deterministic_witness :
    seed_string "a0b1" 0 ≠ seed_string "a0b1" 1 :=
  (stage_shuffle_seeded_and_deterministic "a0b1" "a0b1" 0 1 []).2.2
    (by decide) (by decide) (by decide)

/-! ### Concrete fixtures used by witnesses and counterexamples -/

/-- A concrete mode with `randomize = true`. -/
def exMode : ModeConfig :=
  { name := "Human", task_markdown := "task", guidelines_markdown := "guide",
    randomize := true, per_item_seconds := none, ai_enabled := false }

/-- A concrete subset with a single-path image directory for mode "m". -/
def exSubset : SubsetConfig :=
  { name := "Subset A", description := none,
    image_dirs := [("m", .single "images/a")] }

/-- A concrete group whose sequence presents subset "s" in mode "m" twice. -/
def exGroup : GroupConfig :=
  { name := "Group G", per_item_seconds := none, hard_timeout := false,
    soft_timeout := true, quota := none,
    sequence := [⟨"s", "m", none⟩, ⟨"s", "m", some "second pass"⟩] }

/-- A concrete experiment configuration with resume enabled and an empty
`participant_roles` list. -/
def exConfig : ExperimentConfig :=
  { batch_id := "batch-1", groups := [("g", exGroup)], modes := [("m", exMode)],
    subsets := [("s", exSubset)], default_per_item_seconds := 60,
    allow_resume := true, participant_roles := [] }

/-- A concrete catalog entry for an image file named `n`. -/
def exEntry (n : String) : CatalogEntry :=
  { subset_id := "s", image_id := n, filename := n ++ ".png",
    relative_path := n ++ ".png", title := pyTitle (pyReplaceChar n '_' ' '),
    url := "/images/subsets/s/m/" ++ n ++ ".png" }

/-- A concrete three-image catalog, the same for every (subset, mode). -/
def exCatalog : String → String → List CatalogEntry :=
  fun _ _ => [exEntry "img_a", exEntry "img_b", exEntry "img_c"]

/-- The result of fresh-item generation on the concrete fixtures. -/
def exGenResult : Except HErr (List ItemModel × List SessionItem × List StageInfo) :=
  generate_session_items exConfig exGroup "sid-1" exCatalog

/-- The item rows of `exGenResult`. -/
def exGenItems : List ItemModel :=
  match exGenResult with
  | .ok r => r.1
  | .error _ => []

/-- The response items of `exGenResult`. -/
def exGenRItems : List SessionItem :=
  match exGenResult with
  | .ok r => r.2.1
  | .error _ => []

/-- The stage metadata of `exGenResult`. -/
def exGenInfos : List StageInfo :=
  match exGenResult with
  | .ok r => r.2.2
  | .error _ => []

/-- Concrete instantiation of the C3 theorem: on the two-stage fixture the
generated order indices are exactly `0, 1, ..., 5`. -/
theorem order_indices_contiguous_across_stages_witness :
    exGenItems.map (·.order_index) = List.range exGenItems.length ∧
      (exGenItems.map (·.order_index)).Nodup :=
  order_indices_contiguous_across_stages exConfig exGroup "sid-1" exCatalog
    exGenItems exGenRItems exGenInfos (by rfl)

/-! ### The start-session endpoint (`main.start_session`, lines 172-323)

The request and response schemas are transcribed from `schemas.py`.  Note
that `schemas.SessionStartRequest` declares only `participant_id`,
`group_id` and `user_agent` — it has no `participant_role` field — and
`schemas.ConfigResponse` has no `participant_roles` field, although
`main.py` reads `payload.participant_role` (line 188) and passes
`participant_roles=...` when building the config response (line 168). -/

/-- Field names declared by `schemas.SessionStartRequest` (schemas.py lines
49-52). -/
def session_start_request_fields : List String :=
  ["participant_id", "group_id", "user_agent"]

/-- Field names declared by `schemas.ConfigResponse` (schemas.py lines
40-46). -/
def config_response_fields : List String :=
  ["batch_id", "default_per_item_seconds", "allow_resume", "subsets",
    "modes", "groups"]

/-- The validated start-session request model
(`schemas.SessionStartRequest`). -/
structure SessionStartRequest where
  participant_id : String
  group_id : String
  user_agent : Option String
deriving DecidableEq, Repr

/-- The JSON body a client sends to `POST /api/session/start`; the interface
documentation lists a `participant_role` member. -/
structure SessionStartBody where
  participant_id : String
  group_id : String
  participant_role : Option String
  user_agent : Option String
deriving DecidableEq, Repr

/-- Pydantic validation of the request body against
`schemas.SessionStartRequest`: with the default `extra="ignore"` model
configuration, every member that is not a declared field — in particular
`participant_role` — is silently dropped. -/
def validate_session_start (body : SessionStartBody) : SessionStartRequest :=
  { participant_id := body.participant_id, group_id := body.group_id,
    user_agent := body.user_agent }

/-- The start-session response model (`schemas.SessionStartResponse`); it
declares no `participant_role` field, so the `participant_role=...` keyword
passed by `main.py` (lines 221 and 319) is dropped by pydantic. -/
structure SessionStartResponse where
  session_id : String
  batch_id : String
  group_id : String
  participant_id : String
  stages : List StageInfo
  items : List SessionItem
  allow_resume : Bool
deriving DecidableEq, Repr

/-- Models the attribute access `payload.participant_role` performed at
`main.py` line 188: `schemas.SessionStartRequest` declares only the fields in
`session_start_request_fields`, and a pydantic model raises `AttributeError`
for an access to an undeclared attribute, so the access fails (the `.ok`
branch is unreachable because the field list does not contain the name). -/
def getattr_participant_role (_payload : SessionStartRequest) :
    Except HErr (Option String) :=
  if "participant_role" ∈ session_start_request_fields then
    .ok none
  else
    .error (.attributeError
      "SessionStartRequest object has no attribute participant_role")

/-- The roles list computed by `main.read_config` (lines 157-159): the
configured roles, falling back to the groups' display names when the list is
empty.  `main.py` passes it as `participant_roles=...` when constructing
`ConfigResponse`, but the schema declares no such field, so the response
drops it. -/
def read_config_participant_roles (cfg : ExperimentConfig) : List String :=
  let participant_roles := cfg.participant_roles
  if participant_roles = [] then cfg.groups.map (fun p => p.2.name)
  else participant_roles

/-- Python `a or b` on optional strings: `a` when truthy, else `b` (used at
`main.py` line 194 for the user agent). -/
def py_or_str (a b : Option String) : Option String :=
  if truthyOptStr a then a else b

/-- Per-request external inputs that the embedding makes explicit: the hashed
client IP and user-agent header captured at `main.py` lines 192-194, the
fresh UUID the ORM assigns to a new session row, and the clock. -/
structure RequestMeta where
  ip_hash : Option String
  user_agent_header : Option String
  fresh_session_id : String
  now : Nat
deriving DecidableEq, Repr

/-- The `ORDER BY started_at DESC` of the resume lookup (`main.py` line
205), realized as a sort. -/
def sort_sessions_desc (l : List SessionModel) : List SessionModel :=
  List.insertionSort (fun a b => b.started_at ≤ a.started_at) l

/-- The `ORDER BY order_index ASC` of the resume item query (`main.py` line
212), realized as a sort. -/
def sort_items_by_order (l : List ItemModel) : List ItemModel :=
  List.insertionSort (fun a b => a.order_index ≤ b.order_index) l

/-- The per-stage count map of `main._build_stage_info_from_items` (lines
68-78): the number of stored items carrying a given stage index. -/
def stage_item_count (items : List ItemModel) (stage_index : Nat) : Nat :=
  (items.filter (fun it => it.stage_index = stage_index)).length

/-- The stage-metadata loop of `main._build_stage_info_from_items` (lines
80-99): metadata comes from the live configuration (a missing mode or subset
raises `KeyError`), item counts from the stored rows. -/
def build_stage_infos (items : List ItemModel) (cfg : ExperimentConfig) :
    List (Nat × StageSequenceItem) → Except HErr (List StageInfo)
  | [] => .ok []
  | (stage_index, stage_config) :: rest =>
    match lookupA cfg.modes stage_config.mode with
    | none => .error (.keyError stage_config.mode)
    | some mode_cfg =>
      match lookupA cfg.subsets stage_config.subset with
      | none => .error (.keyError stage_config.subset)
      | some subset_cfg =>
        match build_stage_infos items cfg rest with
        | .error e => .error e
        | .ok infos =>
          .ok ({ stage_index, subset_id := stage_config.subset,
                 subset_name := subset_cfg.name, mode_id := stage_config.mode,
                 mode_name := mode_cfg.name, label := stage_config.label,
                 ai_enabled := mode_cfg.ai_enabled,
                 task_markdown := mode_cfg.task_markdown,
                 guidelines_markdown := mode_cfg.guidelines_markdown,
                 total_items := stage_item_count items stage_index } :: infos)

/-- One response item of the resume branch (`main.py` lines 224-233), built
from a stored item row. -/
def resume_session_item (item : ItemModel) : SessionItem :=
  { stage_index := item.stage_index, subset_id := item.subset_id,
    mode_id := item.mode_id, image_id := item.image_id,
    filename := item.filename,
    title := pyTitle (pyReplaceChar item.image_id '_' ' '),
    order_index := item.order_index,
    url := "/images/subsets/" ++ item.subset_id ++ "/" ++ item.mode_id ++
      "/" ++ item.filename }

/-- The fresh-session path of `main.start_session` (lines 239-323): insert a
new session row (mode id "multi_stage", fresh UUID, current time), generate
the items, add them, and build the response. -/
def start_session_fresh (cfg : ExperimentConfig) (db : Db)
    (participant_id group_id : String) (group_config : GroupConfig)
    (participant_role : Option String) (user_agent : Option String)
    (meta : RequestMeta) (catalog : String → String → List CatalogEntry) :
    Except HErr (SessionStartResponse × Db) :=
  let session_model : SessionModel :=
    { session_id := meta.fresh_session_id, participant_id, group_id,
      mode_id := "multi_stage", participant_role, batch_id := cfg.batch_id,
      started_at := meta.now, finished_at := none, user_agent,
      ip_hash := meta.ip_hash, total_elapsed_ms := none }
  match generate_session_items cfg group_config meta.fresh_session_id catalog with
  | .error e => .error e
  | .ok res =>
    let db' : Db :=
      { sessions := db.sessions ++ [session_model],
        items := db.items ++ res.1, records := db.records }
    .ok ({ session_id := session_model.session_id,
           batch_id := session_model.batch_id,
           group_id := session_model.group_id,
           participant_id := session_model.participant_id,
           stages := res.2.2, items := res.2.1,
           allow_resume := cfg.allow_resume }, db')

/-- The part of `main.start_session` after the `payload.participant_role`
access (lines 188-323), with the raw attribute value passed explicitly: role
normalization and validation, the resume lookup when `allow_resume` is set,
and otherwise the fresh-session path.  Unreachable from the endpoint, whose
attribute access fails first. -/
def start_session_core (cfg : ExperimentConfig) (db : Db)
    (participant_id : String) (payload : SessionStartRequest)
    (group_config : GroupConfig) (participant_role_raw : Option String)
    (meta : RequestMeta) (catalog : String → String → List CatalogEntry) :
    Except HErr (SessionStartResponse × Db) :=
  let participant_role : Option String :=
    match participant_role_raw with
    | some r => if r ≠ "" then some (pyStrip r) else none
    | none => none
  if truthyOptStr participant_role &&
      !(cfg.participant_roles.contains (participant_role.getD "")) then
    .error (.http 400 "Unknown participant_role")
  else
    let user_agent := py_or_str payload.user_agent meta.user_agent_header
    let resume_session : Option SessionModel :=
      if cfg.allow_resume then
        (sort_sessions_desc (db.sessions.filter
          (fun s => s.participant_id = participant_id &&
            s.group_id = payload.group_id))).head?
      else none
    match resume_session with
    | some session_model =>
      if session_model.finished_at = none then
        let items := sort_items_by_order
          (db.items.filter (fun it => it.session_id = session_model.session_id))
        match build_stage_infos items cfg group_config.sequence.enum with
        | .error e => .error e
        | .ok stage_infos =>
          .ok ({ session_id := session_model.session_id,
                 batch_id := session_model.batch_id,
                 group_id := session_model.group_id,
                 participant_id := session_model.participant_id,
                 stages := stage_infos,
                 items := items.map resume_session_item,
                 allow_resume := cfg.allow_resume }, db)
      else
        start_session_fresh cfg db participant_id payload.group_id group_config
          participant_role user_agent meta catalog
    | none =>
      start_session_fresh cfg db participant_id payload.group_id group_config
        participant_role user_agent meta catalog

/-- The `POST /api/session/start` handler (`main.start_session`, lines
172-323): trim and require the participant id, require a known group with a
non-empty stage sequence, then read `payload.participant_role` — an access
that raises `AttributeError` because the request schema declares no such
field — before the resume or generation logic can run. -/
def start_session (cfg : ExperimentConfig) (db : Db)
    (payload : SessionStartRequest) (meta : RequestMeta)
    (catalog : String → String → List CatalogEntry) :
    Except HErr (SessionStartResponse × Db) :=
  let participant_id := pyStrip payload.participant_id
  if participant_id = "" then
    .error (.http 400 "participant_id is required")
  else
    match lookupA cfg.groups payload.group_id with
    | none => .error (.http 400 "Unknown group_id")
    | some group_config =>
      if group_config.sequence = [] then
        .error (.http 400 "Group has no stage sequence configured")
      else
        match getattr_participant_role payload with
        | .error e => .error e
        | .ok role_raw =>
          start_session_core cfg db participant_id payload group_config
            role_raw meta catalog

/-- A stored, unfinished session of participant "p1" in group "g". -/
def exSession : SessionModel :=
  { session_id := "sid-0", participant_id := "p1", group_id := "g",
    mode_id := "multi_stage", participant_role := none,
    batch_id := "batch-1", started_at := 100, finished_at := none,
    user_agent := none, ip_hash := none, total_elapsed_ms := none }

/-- A stored item of session "sid-0". -/
def exItem0 : ItemModel :=
  { session_id := "sid-0", image_id := "img_a", filename := "img_a.png",
    order_index := 0, subset_id := "s", stage_index := 0, mode_id := "m",
    ai_hint := none }

/-- A database holding the unfinished session "sid-0" and its item. -/
def exDbResume : Db := { sessions := [exSession], items := [exItem0], records := [] }

/-- An empty database. -/
def exDbEmpty : Db := { sessions := [], items := [], records := [] }

/-- Concrete request metadata. -/
def exMeta : RequestMeta :=
  { ip_hash := none, user_agent_header := none,
    fresh_session_id := "sid-new", now := 200 }

/-- C1 (code bug): with `allow_resume = true` and an unfinished session for
(participant "p1", group "g") already materialized in the database, calling
`start_session` again does not return that session's items: it raises
`AttributeError` (an HTTP 500) because `schemas.SessionStartRequest` declares
no `participant_role` field while `main.py` line 188 reads
`payload.participant_role`, so the resume branch is unreachable. -/
theorem start_session_resume_request_raises :
    start_session exConfig exDbResume
        { participant_id := "p1", group_id := "g", user_agent := none }
        exMeta exCatalog
      = .error (.attributeError
          "SessionStartRequest object has no attribute participant_role") := by
  rfl

/-- C10 (code bug): under a configuration whose `participant_roles` list is
empty, a start request supplying `participant_role = "Expert"` does not fail
with 400 "Unknown participant_role": pydantic validation drops the
undeclared member, the handler then raises `AttributeError` reading it back
(HTTP 500); and the config response cannot report the groups' display names
as `participant_roles` because `schemas.ConfigResponse` declares no such
field, even though `main.read_config` computes exactly that fallback list. -/
theorem start_session_role_check_unreachable :
    exConfig.participant_roles = []
    ∧ validate_session_start
        { participant_id := "p1", group_id := "g",
          participant_role := some "Expert", user_agent := none }
        = { participant_id := "p1", group_id := "g", user_agent := none }
    ∧ start_session exConfig exDbEmpty
        (validate_session_start
          { participant_id := "p1", group_id := "g",
            participant_role := some "Expert", user_agent := none })
        exMeta exCatalog
      = .error (.attributeError
          "SessionStartRequest object has no attribute participant_role")
    ∧ "participant_role" ∉ session_start_request_fields
    ∧ "participant_roles" ∉ config_response_fields
    ∧ read_config_participant_roles exConfig = ["Group G"] := by
  refine ⟨rfl, rfl, rfl, by decide, by decide, rfl⟩

/-! ### Record upsert and session finish (`main.py` lines 326-425)

Both handlers end by calling `exporter.write_csv_snapshot` with keyword
arguments `participant_id=`, `participant_role=`, `mode_id=`, `session_id=`
and `group_id=` (`main.py` lines 390-397 and 416-423), while
`exporter.write_csv_snapshot` (exporter.py lines 73-79) accepts only the
keyword-only parameters `participant_id`, `mode_id` and `session_id`.  A
Python call supplying a keyword argument the callee does not accept raises
`TypeError` before the callee's body runs; neither call site is wrapped in
try/except, so the error propagates and `get_db_session` rolls the
transaction back. -/

/-- Keyword-only parameter names of `exporter.write_csv_snapshot`
(exporter.py lines 73-79). -/
def write_csv_snapshot_kwparams : List String :=
  ["participant_id", "mode_id", "session_id"]

/-- Keyword-argument names passed at the snapshot call sites in
`main.record_response` (lines 390-397) and `main.finish_session` (lines
416-423). -/
def snapshot_call_kwargs : List String :=
  ["participant_id", "participant_role", "mode_id", "session_id", "group_id"]

/-- Models the Python call of `write_csv_snapshot` at those call sites: the
call succeeds only if every supplied keyword is an accepted parameter;
otherwise it raises `TypeError` before the function body runs. -/
def call_write_csv_snapshot : Except HErr Unit :=
  if snapshot_call_kwargs.all (fun k => write_csv_snapshot_kwparams.contains k) then
    .ok ()
  else
    .error (.typeError
      "write_csv_snapshot() got an unexpected keyword argument participant_role")

/-- The record payload (`schemas.RecordPayload`). -/
structure RecordPayload where
  session_id : String
  image_id : String
  answer : String
  order_index : Option Nat
  elapsed_ms_item : Option Nat
  elapsed_ms_global : Option Nat
  skipped : Bool
  item_timeout : Bool
  ts_client : Option Nat
  user_agent : Option String
deriving DecidableEq, Repr

/-- The finish payload (`schemas.SessionFinishRequest`). -/
structure SessionFinishRequest where
  session_id : String
  total_elapsed_ms : Option Nat
deriving DecidableEq, Repr

/-- Per-request external inputs of the record handler: hashed client IP,
user-agent header, and the clock for the `ts_server` column default. -/
structure RecordMeta where
  ip_hash : Option String
  user_agent_header : Option String
  now : Nat
deriving DecidableEq, Repr

/-- Replace the first list element satisfying `p` by its image under `f`;
models an in-place ORM update of the row returned by `.first()`. -/
def update_first {α : Type} (p : α → Bool) (f : α → α) : List α → List α
  | [] => []
  | x :: xs => if p x then f x :: xs else x :: update_first p f xs

/-- The lookup-and-upsert part of `main.record_response` (lines 330-388):
404 when the session is unknown, 400 when the image is not part of the
session, `order_index` defaulting to the item row's stored index, then
overwrite of the mutable fields of an existing record for (session id,
image id) or insertion of a new row. -/
def record_upsert (db : Db) (payload : RecordPayload) (meta : RecordMeta) :
    Except HErr Db :=
  match db.sessions.find? (fun s => s.session_id = payload.session_id) with
  | none => .error (.http 404 "Session not found")
  | some _session_model =>
    match db.items.find? (fun it => it.session_id = payload.session_id &&
        it.image_id = payload.image_id) with
    | none => .error (.http 400 "Image not part of session")
    | some item_model =>
      let order_index : Option Nat :=
        match payload.order_index with
        | none => some item_model.order_index
        | some v => some v
      let user_agent := py_or_str payload.user_agent meta.user_agent_header
      let isPair : RecordModel → Bool := fun r =>
        r.session_id = payload.session_id && r.image_id = payload.image_id
      match db.records.find? isPair with
      | some _ =>
        let records' := update_first isPair (fun r =>
          { r with
            answer := payload.answer, order_index := order_index,
            elapsed_ms_item := payload.elapsed_ms_item,
            elapsed_ms_global := payload.elapsed_ms_global,
            skipped := payload.skipped, item_timeout := payload.item_timeout,
            ts_client := payload.ts_client, user_agent := user_agent,
            ip_hash := meta.ip_hash, subset_id := some item_model.subset_id,
            stage_index := some item_model.stage_index,
            mode_id := some item_model.mode_id }) db.records
        .ok { db with records := records' }
      | none =>
        let record_model : RecordModel :=
          { session_id := payload.session_id, image_id := payload.image_id,
            answer := payload.answer, order_index,
            elapsed_ms_item := payload.elapsed_ms_item,
            elapsed_ms_global := payload.elapsed_ms_global,
            skipped := payload.skipped, item_timeout := payload.item_timeout,
            ts_server := meta.now, ts_client := payload.ts_client,
            user_agent, ip_hash := meta.ip_hash,
            subset_id := some item_model.subset_id,
            stage_index := some item_model.stage_index,
            mode_id := some item_model.mode_id }
        .ok { db with records := db.records ++ [record_model] }

/-- The `POST /api/record` handler (`main.record_response`, lines 326-399):
the upsert followed by the snapshot call, whose `TypeError` propagates. -/
def record_response (db : Db) (payload : RecordPayload) (meta : RecordMeta) :
    Except HErr (String × Db) :=
  match record_upsert db payload meta with
  | .error e => .error e
  | .ok db' =>
    match call_write_csv_snapshot with
    | .error e => .error e
    | .ok _ => .ok ("ok", db')

/-- The `POST /api/session/finish` handler (`main.finish_session`, lines
402-425): 404 when the session is unknown; otherwise set `finished_at` only
if not already set and optionally `total_elapsed_ms`, then call the snapshot,
whose `TypeError` propagates. -/
def finish_session (db : Db) (payload : SessionFinishRequest) (now : Nat) :
    Except HErr (String × Db) :=
  match db.sessions.find? (fun s => s.session_id = payload.session_id) with
  | none => .error (.http 404 "Session not found")
  | some _session_model =>
    let upd : SessionModel → SessionModel := fun s =>
      let s1 := if s.finished_at = none then { s with finished_at := some now }
        else s
      match payload.total_elapsed_ms with
      | some v => { s1 with total_elapsed_ms := some v }
      | none => s1
    let sessions' :=
      update_first (fun s => s.session_id = payload.session_id) upd db.sessions
    let db' : Db := { db with sessions := sessions' }
    match call_write_csv_snapshot with
    | .error e => .error e
    | .ok _ => .ok ("ok", db')

/-- The per-request transaction of `main.get_db_session` (lines 52-61):
commit the handler's state on success, roll back to the pre-request state on
any exception; the boolean records whether the request succeeded. -/
def runTxn {α : Type} (db : Db) (result : Except HErr (α × Db)) : Db × Bool :=
  match result with
  | .ok r => (r.2, true)
  | .error _ => (db, false)

/-- A stored session "s1" with one item "img_a", used to exercise the record
handler. -/
def exSessionS1 : SessionModel :=
  { session_id := "s1", participant_id := "p1", group_id := "g",
    mode_id := "multi_stage", participant_role := none,
    batch_id := "batch-1", started_at := 100, finished_at := none,
    user_agent := none, ip_hash := none, total_elapsed_ms := none }

/-- The item of session "s1". -/
def exItemS1 : ItemModel :=
  { session_id := "s1", image_id := "img_a", filename := "img_a.png",
    order_index := 0, subset_id := "s", stage_index := 0, mode_id := "m",
    ai_hint := none }

/-- Database holding session "s1" and its item, no records yet. -/
def exDbS1 : Db := { sessions := [exSessionS1], items := [exItemS1], records := [] }

/-- A record submission for (session "s1", image "img_a") with answer `ans`. -/
def exRecPayload (ans : String) : RecordPayload :=
  { session_id := "s1", image_id := "img_a", answer := ans,
    order_index := none, elapsed_ms_item := some 1000,
    elapsed_ms_global := some 5000, skipped := false, item_timeout := false,
    ts_client := none, user_agent := none }

/-- Concrete metadata for the record handler. -/
def exRecMeta : RecordMeta :=
  { ip_hash := none, user_agent_header := none, now := 150 }

/-- C4 (code bug): submitting a record for (session "s1", image "img_a")
twice leaves zero stored records for that pair, not one with the latest
values: each `POST /api/record` raises `TypeError` at the
`write_csv_snapshot` call (`main.py` lines 390-397 pass the keyword
arguments `participant_role` and `group_id`, which the exporter does not
accept), so the transaction rolls back both times. -/
theorem record_twice_stores_nothing :
    record_response exDbS1 (exRecPayload "yes") exRecMeta
      = .error (.typeError
          "write_csv_snapshot() got an unexpected keyword argument participant_role")
    ∧ ((runTxn
          (runTxn exDbS1 (record_response exDbS1 (exRecPayload "yes") exRecMeta)).1
          (record_response
            (runTxn exDbS1 (record_response exDbS1 (exRecPayload "yes") exRecMeta)).1
            (exRecPayload "no") exRecMeta)).1.records.filter
        (fun r => r.session_id = "s1" && r.image_id = "img_a")).length = 0 := by
  exact ⟨rfl, rfl⟩

/-- The database state after the upsert of a "yes" answer for (session "s1",
image "img_a") — the state the snapshot failure then discards. -/
def exDbS1AfterUpsert : Db :=
  match record_upsert exDbS1 (exRecPayload "yes") exRecMeta with
  | .ok d => d
  | .error _ => exDbS1

/-- C5 (code bug): the CSV snapshot step is not isolated.  On a record write
whose upsert succeeds and stores the record, the snapshot step fails (the
call itself raises `TypeError` because `main.py` passes keyword arguments
the exporter does not accept, and no try/except guards it); the failure
propagates, the transaction rolls the record write back, and the response is
an error instead of a success status. -/
theorem snapshot_failure_rolls_back_record_write :
    record_upsert exDbS1 (exRecPayload "yes") exRecMeta = .ok exDbS1AfterUpsert
    ∧ (exDbS1AfterUpsert.records.filter
        (fun r => r.session_id = "s1" && r.image_id = "img_a")).length = 1
    ∧ call_write_csv_snapshot
      = .error (.typeError
          "write_csv_snapshot() got an unexpected keyword argument participant_role")
    ∧ runTxn exDbS1 (record_response exDbS1 (exRecPayload "yes") exRecMeta)
      = (exDbS1, false) := by
  exact ⟨rfl, rfl, rfl, rfl⟩

/-- A stored, unfinished session "s3" for the finish handler. -/
def exSessionS3 : SessionModel :=
  { session_id := "s3", participant_id := "p3", group_id := "g",
    mode_id := "multi_stage", participant_role := none,
    batch_id := "batch-1", started_at := 120, finished_at := none,
    user_agent := none, ip_hash := none, total_elapsed_ms := none }

/-- Database holding only the unfinished session "s3". -/
def exDbS3 : Db := { sessions := [exSessionS3], items := [], records := [] }

/-- C6 (code bug): finishing the existing session "s3" does not return
status "ok": after setting `finished_at` the handler raises `TypeError` at
the `write_csv_snapshot` call (`main.py` lines 416-423), the transaction
rolls back and `finished_at` remains unset, so no finish ever takes effect;
only the 404-on-unknown-session part of the claim behaves as stated. -/
theorem finish_session_never_ok :
    finish_session exDbS3 { session_id := "s3", total_elapsed_ms := none } 300
      = .error (.typeError
          "write_csv_snapshot() got an unexpected keyword argument participant_role")
    ∧ (runTxn exDbS3
        (finish_session exDbS3 { session_id := "s3", total_elapsed_ms := none } 300)).1
      = exDbS3
    ∧ exDbS3.sessions.map (·.finished_at) = [none]
    ∧ finish_session exDbS3 { session_id := "unknown", total_elapsed_ms := none } 300
      = .error (.http 404 "Session not found") := by
  exact ⟨rfl, rfl, rfl, rfl⟩

/-! ### Filesystem, paths and the config-loader catalog
(`config_loader.py`)

Paths are an absolute flag plus a component list; `Path.resolve()` is the
identity in this model (no symlinks or `..` occur).  A filesystem is the set
of directory paths and file paths that exist.  Nothing in
`config_loader.py` writes to the filesystem, so the listing functions thread
the filesystem state through unchanged. -/

/-- A `pathlib.Path`: absolute flag and components. -/
structure PyPath where
  absolute : Bool
  comps : List String
deriving DecidableEq, Repr

/-- Split a character list at every occurrence of `sep`. -/
def splitChar (sep : Char) : List Char → List (List Char)
  | [] => [[]]
  | c :: rest =>
    match splitChar sep rest with
    | [] => if c = sep then [[], []] else [[c]]
    | hd :: tl => if c = sep then [] :: hd :: tl else (c :: hd) :: tl

/-- Parse a path string the way `pathlib.Path` does (collapsing repeated
separators). -/
def pathOfString (s : String) : PyPath :=
  { absolute := match s.data with
      | '/' :: _ => true
      | _ => false,
    comps := ((splitChar '/' s.data).map (fun l => (⟨l⟩ : String))).filter
      (fun c => c ≠ "") }

/-- Path join `p / q` (`q` is relative at every use site in the source). -/
def PyPath.join (p q : PyPath) : PyPath :=
  if q.absolute then q else { absolute := p.absolute, comps := p.comps ++ q.comps }

/-- Append one component: `p / c`. -/
def PyPath.child (p : PyPath) (c : String) : PyPath :=
  { p with comps := p.comps ++ [c] }

/-- `Path.name`: the final component (empty for a root path). -/
def PyPath.name (p : PyPath) : String := p.comps.getLast?.getD ""

/-- `Path.parent`: drop the final component. -/
def PyPath.parent (p : PyPath) : PyPath := { p with comps := p.comps.dropLast }

/-- Strict-descendant test: `q` lies strictly below directory `p`. -/
def PyPath.isUnder (q p : PyPath) : Bool :=
  decide (q.absolute = p.absolute) && decide (p.comps <+: q.comps) &&
    decide (p.comps.length < q.comps.length)

/-- The filesystem state: which paths exist as directories and as files. -/
structure FileSystem where
  dirs : List PyPath
  files : List PyPath
deriving DecidableEq, Repr

/-- `Path.is_dir()`. -/
def FileSystem.isDir (fs : FileSystem) (p : PyPath) : Bool := decide (p ∈ fs.dirs)

/-- `Path.is_file()`. -/
def FileSystem.isFile (fs : FileSystem) (p : PyPath) : Bool := decide (p ∈ fs.files)

/-- `Path.exists()`. -/
def FileSystem.pathExists (fs : FileSystem) (p : PyPath) : Bool :=
  fs.isDir p || fs.isFile p

/-- Well-formedness of a filesystem: every strict ancestor of an existing
entry exists as a directory. -/
def FileSystem.WF (fs : FileSystem) : Prop :=
  ∀ p ∈ fs.dirs ++ fs.files, ∀ k : Nat, k < p.comps.length →
    (⟨p.absolute, p.comps.take k⟩ : PyPath) ∈ fs.dirs

/-- Strict lexicographic comparison of character lists (the order of Python
string comparison). -/
def charsLtB : List Char → List Char → Bool
  | [], [] => false
  | [], _ :: _ => true
  | _ :: _, [] => false
  | a :: as, b :: bs => if a = b then charsLtB as bs else decide (a.toNat < b.toNat)

/-- Python string comparison `a < b`. -/
def strLtB (a b : String) : Bool := charsLtB a.data b.data

/-- Component-wise lexicographic path order, the order `sorted()` puts
`pathlib.Path` values in (they compare by their parts tuples). -/
def pathCompsLe : List String → List String → Bool
  | [], _ => true
  | _ :: _, [] => false
  | a :: as, b :: bs => if a = b then pathCompsLe as bs else strLtB a b

/-- Sort paths the way `sorted()` sorts `pathlib.Path` values. -/
def sortPaths (l : List PyPath) : List PyPath :=
  List.insertionSort (fun p q => pathCompsLe p.comps q.comps = true) l

/-- Models `dir.rglob("*")` (in sorted order; the source either sorts the
result or only tests membership): every entry strictly below `dir`.  On
Python 3.11 a non-existent directory yields nothing rather than raising,
which this model reproduces: no entry lies below a missing directory in a
well-formed filesystem. -/
def FileSystem.rglob (fs : FileSystem) (dir : PyPath) : List PyPath :=
  sortPaths ((fs.dirs ++ fs.files).filter (fun p => p.isUnder dir))

/-- Lowercase a string (ASCII, as used for file extensions). -/
def toLowerStr (s : String) : String := ⟨s.data.map Char.toLower⟩

/-- Index of the last "." in a name, if any (Python `str.rfind`). -/
def rfindDot (l : List Char) : Option Nat :=
  match l.reverse.findIdx? (fun c => c = '.') with
  | none => none
  | some k => some (l.length - 1 - k)

/-- `Path.suffix`: the final extension including the dot, or "" when the dot
is absent, leading, or trailing. -/
def pySuffix (name : String) : String :=
  match rfindDot name.data with
  | some i =>
    if 0 < i && i < name.data.length - 1 then ⟨name.data.drop i⟩ else ""
  | none => ""

/-- `Path.stem`: the name without its final extension. -/
def pyStem (name : String) : String :=
  match rfindDot name.data with
  | some i =>
    if 0 < i && i < name.data.length - 1 then ⟨name.data.take i⟩ else name
  | none => name

/-- The image-extension allow-list `_IMAGE_SUFFIXES` (config_loader.py line
15). -/
def image_suffixes : List String := [".png", ".jpg", ".jpeg", ".gif", ".webp"]

/-- The environment-driven settings the config loader consults
(`settings.Settings`, restricted to the fields `resolve_image_dir` reads). -/
structure Settings where
  config_path : Option PyPath
  project_root : Option PyPath
deriving DecidableEq, Repr

/-- The inner `resolve_base_path` of `ExperimentConfig.resolve_image_dir`
(config_loader.py lines 62-73): an absolute path stands; otherwise resolve
against the project-root override, else against the config file's parent,
walking up one level when that parent is literally named "config". -/
def resolve_base_path (st : Settings) (image_dir : PyPath) : Except HErr PyPath :=
  if image_dir.absolute then .ok image_dir
  else
    match st.project_root with
    | some project_root => .ok (project_root.join image_dir)
    | none =>
      match st.config_path with
      | none => .error (.attributeError "NoneType object has no attribute resolve")
      | some config_path =>
        let parent := config_path.parent
        let parent :=
          if parent.name = "config" && decide (2 ≤ config_path.comps.length) then
            config_path.parent.parent
          else parent
        .ok (parent.join image_dir)

/-- The language preference the specification states for a language-keyed
mapping: the exact requested language, else the "en" entry, else the first
available entry.  This is the spec-side definition, used to compare the
source's resolution against the specified preference. -/
def preferred_language_entry (entries : List (String × String))
    (lang : String) : Option String :=
  match lookupA entries lang with
  | some p => some p
  | none =>
    match lookupA entries "en" with
    | some p => some p
    | none => entries.head?.map (fun e => e.2)

/-- `ExperimentConfig.resolve_image_dir` (config_loader.py lines 57-91):
`KeyError` when the subset is unknown or the subset has no image-directory
entry for the mode; for a language-keyed mapping choose the requested
language's entry, falling through (on `None` or an empty string, both falsy)
to the "en" entry, then to the first value (`StopIteration` if the mapping
is empty); for a single path, prefer an existing language subdirectory. -/
def resolve_image_dir (cfg : ExperimentConfig) (st : Settings)
    (fs : FileSystem) (subset_id mode_id : String)
    (language : Option String) : Except HErr PyPath :=
  match lookupA cfg.subsets subset_id with
  | none => .error (.keyError subset_id)
  | some subset =>
    match lookupA subset.image_dirs mode_id with
    | none => .error (.keyError ("Subset \x27" ++ subset_id ++
        "\x27 has no image directory for mode \x27" ++ mode_id ++ "\x27"))
    | some image_dir_cfg =>
      match image_dir_cfg with
      | .byLang entries =>
        let chosen1 : Option String :=
          match language with
          | some l => if l ≠ "" then lookupA entries l else none
          | none => none
        let chosen2 :=
          if truthyOptStr chosen1 then chosen1 else lookupA entries "en"
        let chosen3 :=
          if truthyOptStr chosen2 then chosen2
          else entries.head?.map (fun e => e.2)
        match chosen3 with
        | none => .error .stopIteration
        | some c => resolve_base_path st (pathOfString c)
      | .single s =>
        match resolve_base_path st (pathOfString s) with
        | .error e => .error e
        | .ok base_dir =>
          match language with
          | some l =>
            if l ≠ "" then
              let candidate := base_dir.child l
              if fs.pathExists candidate && fs.isDir candidate then
                .ok candidate
              else .ok base_dir
            else .ok base_dir
          | none => .ok base_dir

/-- `config_loader._directory_has_images` (lines 115-121): false when the
path does not exist or is not a directory; otherwise whether some file below
it carries an allow-listed extension. -/
def directory_has_images (fs : FileSystem) (images_dir : PyPath) : Bool :=
  if !(fs.pathExists images_dir) || !(fs.isDir images_dir) then false
  else (fs.rglob images_dir).any (fun p =>
    fs.isFile p && image_suffixes.contains (toLowerStr (pySuffix p.name)))

/-- Sort strings as Python `sorted` does. -/
def sortStrings (l : List String) : List String :=
  List.insertionSort (fun a b : String => strLtB b a = false) l

/-- The candidate-language loop of `config_loader.list_subset_images`
(lines 148-151): the first candidate whose resolved directory contains
images. -/
def first_dir_with_images (cfg : ExperimentConfig) (st : Settings)
    (fs : FileSystem) (subset_id mode_id : String) :
    List String → Except HErr (Option PyPath)
  | [] => .ok none
  | c :: rest =>
    match resolve_image_dir cfg st fs subset_id mode_id (some c) with
    | .error e => .error e
    | .ok candidate_dir =>
      if directory_has_images fs candidate_dir then .ok (some candidate_dir)
      else first_dir_with_images cfg st fs subset_id mode_id rest

/-- The directory-selection part of `config_loader.list_subset_images`
(lines 127-155): with an explicit language, resolve directly; otherwise try
"en", "zh" and the remaining mapping keys in sorted order, keeping the first
candidate directory that contains images, and fall back to resolving "en". -/
def list_subset_images_dir (cfg : ExperimentConfig) (st : Settings)
    (fs : FileSystem) (subset_id mode_id : String)
    (language : Option String) : Except HErr PyPath :=
  if truthyOptStr language then
    resolve_image_dir cfg st fs subset_id mode_id language
  else
    match lookupA cfg.subsets subset_id with
    | none => .error (.keyError subset_id)
    | some subset =>
      match lookupA subset.image_dirs mode_id with
      | none => .error (.keyError ("Subset \x27" ++ subset_id ++
          "\x27 has no image directory for mode \x27" ++ mode_id ++ "\x27"))
      | some image_dir_cfg =>
        let candidates : List String :=
          match image_dir_cfg with
          | .byLang entries =>
            (if (lookupA entries "en").isSome then ["en"] else []) ++
              (if (lookupA entries "zh").isSome then ["zh"] else []) ++
              sortStrings ((entries.map (fun e => e.1)).filter
                (fun k => k ≠ "en" && k ≠ "zh"))
          | .single _ => ["en", "zh"]
        match first_dir_with_images cfg st fs subset_id mode_id candidates with
        | .error e => .error e
        | .ok (some images_dir) => .ok images_dir
        | .ok none => resolve_image_dir cfg st fs subset_id mode_id (some "en")

/-- `config_loader.list_subset_images` (lines 124-175): select the images
directory, then build one catalog entry per allow-listed file below it, in
sorted order, with ids and titles derived from the file name and URLs
preserving the sub-path.  The filesystem is returned unchanged: the function
performs no writes (in particular it creates no directory). -/
def list_subset_images (cfg : ExperimentConfig) (st : Settings)
    (fs : FileSystem) (subset_id mode_id : String)
    (language : Option String) :
    Except HErr (List CatalogEntry × FileSystem) :=
  match list_subset_images_dir cfg st fs subset_id mode_id language with
  | .error e => .error e
  | .ok images_dir =>
    let entries := (fs.rglob images_dir).filterMap (fun p =>
      if !(fs.isFile p) then none
      else if !(image_suffixes.contains (toLowerStr (pySuffix p.name))) then
        none
      else
        let image_id := pyStem p.name
        let rel := String.intercalate "/" (p.comps.drop images_dir.comps.length)
        some { subset_id, image_id, filename := p.name,
               relative_path := rel,
               title := pyTitle (pyReplaceChar image_id '_' ' '),
               url := "/images/subsets/" ++ subset_id ++ "/" ++ mode_id ++
                 "/" ++ rel })
    .ok (entries, fs)

theorem rglob_eq_nil_of_not_dir (fs : FileSystem) (d : PyPath)
    (hwf : fs.WF) (hd : d ∉ fs.dirs) : fs.rglob d = [] := by
  have hfilter : (fs.dirs ++ fs.files).filter (fun p => p.isUnder d) = [] := by
    rw [List.filter_eq_nil_iff]
    intro p hp hpu
    simp only [PyPath.isUnder, Bool.and_eq_true, decide_eq_true_eq] at hpu
    obtain ⟨⟨habs, hpre⟩, hlen⟩ := hpu
    have htake : d.comps = p.comps.take d.comps.length :=
      List.prefix_iff_eq_take.mp hpre
    have hmem := hwf p hp d.comps.length hlen
    rw [← htake, habs] at hmem
    exact hd hmem
  unfold FileSystem.rglob
  rw [hfilter]
  rfl

/-- C7 (amended): for every subset/mode pairing whose selected image
directory does not exist in a well-formed filesystem, catalog listing
returns an empty result rather than failing — but it does not create the
directory: the filesystem comes back unchanged and the directory still does
not exist. -/
theorem missing_dir_listing_returns_empty (cfg : ExperimentConfig)
    (st : Settings) (fs : FileSystem) (subset_id mode_id : String)
    (d : PyPath) (hwf : fs.WF)
    (hdir : list_subset_images_dir cfg st fs subset_id mode_id none = .ok d)
    (hd : d ∉ fs.dirs) :
    list_subset_images cfg st fs subset_id mode_id none = .ok ([], fs) ∧
      d ∉ fs.dirs := by
  refine ⟨?_, hd⟩
  unfold list_subset_images
  rw [hdir]
  simp [rglob_eq_nil_of_not_dir fs d hwf hd]

/-- Settings fixture: config file at /app/config/experiment.json, project
root /app. -/
def exSettings : Settings :=
  { config_path := some ⟨true, ["app", "config", "experiment.json"]⟩,
    project_root := some ⟨true, ["app"]⟩ }

/-- An empty filesystem: the configured image directory does not exist. -/
def exFsEmpty : FileSystem := { dirs := [], files := [] }

/-- The directory the listing resolves for subset "s", mode "m" under
`exSettings`: /app/images/a. -/
def exResolvedDir : PyPath := ⟨true, ["app", "images", "a"]⟩

/-- C7 (counterexample to the claim as stated): on a filesystem where the
resolved image directory /app/images/a does not exist, the catalog listing
returns an empty result — but it does not create the directory: the
filesystem it returns is the unchanged input, in which the directory still
does not exist, refuting the "creates the directory" part of the claim. -/
theorem missing_dir_not_created :
    list_subset_images exConfig exSettings exFsEmpty "s" "m" none
      = .ok ([], exFsEmpty)
    ∧ list_subset_images_dir exConfig exSettings exFsEmpty "s" "m" none
      = .ok exResolvedDir
    ∧ exFsEmpty.isDir exResolvedDir = false := by
  exact ⟨rfl, rfl, rfl⟩

/-- Concrete instantiation of the amended C7 theorem on the empty
filesystem. -/
theorem missing_dir_listing_returns_empty_witness :
    list_subset_images exConfig exSettings exFsEmpty "s" "m" none
        = .ok ([], exFsEmpty) ∧ exResolvedDir ∉ exFsEmpty.dirs :=
  missing_dir_listing_returns_empty exConfig exSettings exFsEmpty "s" "m"
    exResolvedDir (by intro p hp; simp [exFsEmpty] at hp) (by rfl) (by decide)

theorem lookupA_mem {α : Type} {l : List (String × α)} {k : String} {v : α}
    (h : lookupA l k = some v) : (k, v) ∈ l := by
  induction l with
  | nil => simp [lookupA] at h
  | cons p rest ih =>
    rw [lookupA] at h
    by_cases hk : p.1 = k
    · rw [if_pos hk] at h
      injection h with h
      exact List.mem_cons.mpr (Or.inl (by cases p; simp_all))
    · rw [if_neg hk] at h
      exact List.mem_cons_of_mem _ (ih h)

/-- C8: for a subset whose mode entry is a language-keyed mapping (with
non-empty path values, as paths are), image-directory resolution follows the
specified preference — the exact requested language, else the "en" entry,
else the first available entry — and resolution for a mode id with no
image-directory entry in the subset fails with a lookup error
(`config_loader.ExperimentConfig.resolve_image_dir`, lines 57-91). -/
theorem resolve_image_dir_language_preference (cfg : ExperimentConfig)
    (st : Settings) (fs : FileSystem) (subset_id mode_id : String)
    (lang : String) (subset : SubsetConfig)
    (hs : lookupA cfg.subsets subset_id = some subset) :
    (lookupA subset.image_dirs mode_id = none →
      resolve_image_dir cfg st fs subset_id mode_id (some lang)
        = .error (.keyError ("Subset \x27" ++ subset_id ++
            "\x27 has no image directory for mode \x27" ++ mode_id ++ "\x27")))
    ∧ ∀ entries,
        lookupA subset.image_dirs mode_id = some (.byLang entries) →
        lang ≠ "" →
        (∀ e ∈ entries, e.2 ≠ "") →
        resolve_image_dir cfg st fs subset_id mode_id (some lang)
          = match preferred_language_entry entries lang with
            | some p => resolve_base_path st (pathOfString p)
            | none => .error .stopIteration := by
  constructor
  · intro hnone
    simp only [resolve_image_dir, hs, hnone]
  · intro entries hmode hlang hvals
    simp only [resolve_image_dir, hs, hmode, preferred_language_entry]
    cases hl : lookupA entries lang with
    | some p =>
      have hp : p ≠ "" := hvals (lang, p) (lookupA_mem hl)
      simp [hlang, hl, truthyOptStr, hp]
    | none =>
      cases he : lookupA entries "en" with
      | some p =>
        have hp : p ≠ "" := hvals ("en", p) (lookupA_mem he)
        simp [hlang, hl, he, truthyOptStr, hp]
      | none =>
        cases hh : entries.head? with
        | some e => simp [hlang, hl, he, hh, truthyOptStr]
        | none => simp [hlang, hl, he, hh, truthyOptStr]

/-- A language-keyed image-directory mapping fixture ("zh" first, "en"
second). -/
def exLangEntries : List (String × String) :=
  [("zh", "images/zh"), ("en", "images/en")]

/-- A subset whose mode "m" entry is the language-keyed mapping. -/
def exSubsetLang : SubsetConfig :=
  { name := "Subset L", description := none,
    image_dirs := [("m", .byLang exLangEntries)] }

/-- A configuration holding `exSubsetLang` under subset id "sl". -/
def exConfigLang : ExperimentConfig :=
  { batch_id := "batch-1", groups := [], modes := [],
    subsets := [("sl", exSubsetLang)], default_per_item_seconds := 60,
    allow_resume := true, participant_roles := [] }

/-- Concrete instantiation of the C8 theorem: an unconfigured mode fails
with the lookup error; a request for language "de" (absent from the mapping)
falls back to the "en" entry, resolving to /app/images/en. -/
theorem resolve_image_dir_language_preference_witness :
    resolve_image_dir exConfigLang exSettings exFsEmpty "sl" "missing"
        (some "de")
      = .error (.keyError
          "Subset \x27sl\x27 has no image directory for mode \x27missing\x27")
    ∧ resolve_image_dir exConfigLang exSettings exFsEmpty "sl" "m" (some "de")
      = (match preferred_language_entry exLangEntries "de" with
         | some p => resolve_base_path exSettings (pathOfString p)
         | none => .error .stopIteration)
    ∧ resolve_image_dir exConfigLang exSettings exFsEmpty "sl" "m" (some "de")
      = .ok ⟨true, ["app", "images", "en"]⟩ := by
  refine ⟨(resolve_image_dir_language_preference exConfigLang exSettings
      exFsEmpty "sl" "missing" "de" exSubsetLang rfl).1 rfl,
    (resolve_image_dir_language_preference exConfigLang exSettings
      exFsEmpty "sl" "m" "de" exSubsetLang rfl).2 exLangEntries rfl
      (by decide) (by decide), by rfl⟩

/-! ### CSV export (`main.export_csv`, lines 428-516, and
`exporter.iter_records`, lines 40-62)

Both queries join each record to the session bearing its session id and
order by (session start time ascending, item order index ascending); the
on-demand export filters by group (session column), mode (record column) and
session id, the snapshot query by session, participant and mode (session
column).  SQL `ORDER BY` on a nullable integer sorts NULL first under the
application's default SQLite dialect; the join and sort are realized as a
list bind and an insertion sort. -/

/-- Ascending SQL comparison of a nullable integer column (NULL first). -/
def optNatLeB : Option Nat → Option Nat → Bool
  | none, _ => true
  | some _, none => false
  | some x, some y => decide (x ≤ y)

/-- The ORDER BY key of both export mechanisms: session start time
ascending, then item order index ascending. -/
def export_le (a b : RecordModel × SessionModel) : Prop :=
  a.2.started_at < b.2.started_at ∨
    (a.2.started_at = b.2.started_at ∧
      optNatLeB a.1.order_index b.1.order_index = true)

instance : DecidableRel export_le := fun a b => by
  unfold export_le
  exact inferInstance

theorem optNatLeB_total (a b : Option Nat) :
    optNatLeB a b = true ∨ optNatLeB b a = true := by
  cases a <;> cases b <;> simp [optNatLeB] <;> omega

theorem optNatLeB_trans {a b c : Option Nat} (h1 : optNatLeB a b = true)
    (h2 : optNatLeB b c = true) : optNatLeB a c = true := by
  cases a <;> cases b <;> cases c <;> simp_all [optNatLeB] <;> omega

instance : IsTotal (RecordModel × SessionModel) export_le := by
  constructor
  intro a b
  unfold export_le
  rcases Nat.lt_trichotomy a.2.started_at b.2.started_at with h | h | h
  · exact Or.inl (Or.inl h)
  · rcases optNatLeB_total a.1.order_index b.1.order_index with ho | ho
    · exact Or.inl (Or.inr ⟨h, ho⟩)
    · exact Or.inr (Or.inr ⟨h.symm, ho⟩)
  · exact Or.inr (Or.inl h)

instance : IsTrans (RecordModel × SessionModel) export_le := by
  constructor
  intro a b c hab hbc
  unfold export_le at hab hbc ⊢
  rcases hab with hab | ⟨hab, hab'⟩ <;> rcases hbc with hbc | ⟨hbc, hbc'⟩
  · exact Or.inl (hab.trans hbc)
  · exact Or.inl (hbc ▸ hab)
  · exact Or.inl (hab ▸ hbc)
  · exact Or.inr ⟨hab.trans hbc, optNatLeB_trans hab' hbc'⟩

/-- The record-session join both export queries build: each record paired
with every session carrying its session id (exactly one in a well-formed
database). -/
def joined_rows (db : Db) : List (RecordModel × SessionModel) :=
  db.records.flatMap (fun r =>
    (db.sessions.filter (fun s => s.session_id = r.session_id)).map
      (fun s => (r, s)))

/-- The WHERE clauses of `main.export_csv` (lines 440-445): group filter on
the session row, mode filter on the record row, session filter on the
session row; `None` and `""` (both falsy query values) disable a filter. -/
def export_filter (group_id mode_id session_id : Option String)
    (row : RecordModel × SessionModel) : Bool :=
  (!truthyOptStr group_id || decide (row.2.group_id = group_id.getD "")) &&
  (!truthyOptStr mode_id || decide (row.1.mode_id = some (mode_id.getD ""))) &&
  (!truthyOptStr session_id || decide (row.2.session_id = session_id.getD ""))

/-- The data rows of `GET /api/export/csv` (`main.export_csv`): one per join
row passing the filters, ordered by the export key. -/
def export_csv_rows (db : Db) (group_id mode_id session_id : Option String) :
    List (RecordModel × SessionModel) :=
  List.insertionSort export_le
    ((joined_rows db).filter (export_filter group_id mode_id session_id))

/-- The WHERE clauses of `exporter.iter_records` (lines 56-61): session and
participant filters on the session row, and the mode filter on the session
row's `mode_id` column. -/
def iter_records_filter (session_id participant_id mode_id : Option String)
    (row : RecordModel × SessionModel) : Bool :=
  (!truthyOptStr session_id || decide (row.2.session_id = session_id.getD "")) &&
  (!truthyOptStr participant_id ||
    decide (row.2.participant_id = participant_id.getD "")) &&
  (!truthyOptStr mode_id || decide (row.2.mode_id = mode_id.getD ""))

/-- The rows the automatic snapshot writes (`exporter.iter_records`),
ordered by the same export key. -/
def iter_records_rows (db : Db)
    (session_id participant_id mode_id : Option String) :
    List (RecordModel × SessionModel) :=
  List.insertionSort export_le
    ((joined_rows db).filter
      (iter_records_filter session_id participant_id mode_id))

/-- Referential integrity of the store: session ids are unique (primary
key) and every record references an existing session (foreign key). -/
def Db.WF (db : Db) : Prop :=
  (db.sessions.map (fun s => s.session_id)).Nodup ∧
    ∀ r ∈ db.records, ∃ s ∈ db.sessions, s.session_id = r.session_id

/-- Whether a record matches the export filters, judged on the record and
its (unique) session row. -/
def record_matches (db : Db) (group_id mode_id session_id : Option String)
    (r : RecordModel) : Bool :=
  match db.sessions.find? (fun s => s.session_id = r.session_id) with
  | some s => export_filter group_id mode_id session_id (r, s)
  | none => false

theorem filter_key_eq_find (l : List SessionModel) (sid : String)
    (hnd : (l.map (fun s => s.session_id)).Nodup) :
    l.filter (fun s => s.session_id = sid)
      = match l.find? (fun s => s.session_id = sid) with
        | some s => [s]
        | none => [] := by
  induction l with
  | nil => rfl
  | cons x xs ih =>
    simp only [List.map_cons, List.nodup_cons] at hnd
    by_cases hx : x.session_id = sid
    · have hxs : xs.filter (fun s => s.session_id = sid) = [] := by
        rw [List.filter_eq_nil_iff]
        intro s hs hkey
        simp only [decide_eq_true_eq] at hkey
        exact hnd.1 (hx ▸ hkey ▸ List.mem_map_of_mem (fun s => s.session_id) hs)
      simp [hx, hxs]
    · simp only [List.filter_cons, List.find?_cons, hx, decide_False]
      simpa [hx] using ih hnd.2

theorem bind_filter_map_fst (sessions : List SessionModel)
    (hnd : (sessions.map (fun s => s.session_id)).Nodup)
    (P : RecordModel × SessionModel → Bool) :
    ∀ records : List RecordModel,
      (((records.flatMap (fun r =>
          (sessions.filter (fun s => s.session_id = r.session_id)).map
            (fun s => (r, s)))).filter P).map Prod.fst)
        = records.filter (fun r =>
            match sessions.find? (fun s => s.session_id = r.session_id) with
            | some s => P (r, s)
            | none => false) := by
  intro records
  induction records with
  | nil => rfl
  | cons r rest ih =>
    rw [List.flatMap_cons, List.filter_append, List.map_append, ih,
      List.filter_cons, filter_key_eq_find sessions r.session_id hnd]
    cases hf : sessions.find? (fun s => s.session_id = r.session_id) with
    | some s =>
      by_cases hp : P (r, s) = true
      · simp [hf, hp]
      · simp [hf, hp]
    | none => simp [hf]

/-- C9: in a well-formed database, the on-demand CSV export emits exactly
one data row per record matching the filter (its projection to records is a
permutation of the matching records, hence the row count is the matching
record count), and both export mechanisms — the on-demand export and the
automatic snapshot query — produce rows sorted by session start time
ascending, then item order index ascending. -/
theorem export_rows_one_per_matching_record_and_sorted (db : Db)
    (group_id mode_id session_id : Option String)
    (ssession sparticipant smode : Option String) (hwf : db.WF) :
    ((export_csv_rows db group_id mode_id session_id).map Prod.fst).Perm
        (db.records.filter (record_matches db group_id mode_id session_id))
    ∧ (export_csv_rows db group_id mode_id session_id).length
        = (db.records.filter
            (record_matches db group_id mode_id session_id)).length
    ∧ List.Sorted export_le (export_csv_rows db group_id mode_id session_id)
    ∧ List.Sorted export_le (iter_records_rows db ssession sparticipant smode) := by
  have hperm :
      ((export_csv_rows db group_id mode_id session_id).map Prod.fst).Perm
        (db.records.filter (record_matches db group_id mode_id session_id)) := by
    have h1 := (List.perm_insertionSort export_le
      ((joined_rows db).filter
        (export_filter group_id mode_id session_id))).map Prod.fst
    have h3 : ((joined_rows db).filter
          (export_filter group_id mode_id session_id)).map Prod.fst
        = db.records.filter (record_matches db group_id mode_id session_id) :=
      bind_filter_map_fst db.sessions hwf.1
        (export_filter group_id mode_id session_id) db.records
    exact h1.trans (List.Perm.of_eq h3)
  refine ⟨hperm, ?_, List.sorted_insertionSort _ _,
    List.sorted_insertionSort _ _⟩
  have := hperm.length_eq
  simpa using this

/-- An export-fixture session with the given id and start time (group "g"). -/
def exExpSession (sid : String) (t : Nat) : SessionModel :=
  { session_id := sid, participant_id := "p1", group_id := "g",
    mode_id := "multi_stage", participant_role := none, batch_id := "b",
    started_at := t, finished_at := none, user_agent := none,
    ip_hash := none, total_elapsed_ms := none }

/-- An export-fixture record for `(sid, img)` at order index `oi`. -/
def exExpRecord (sid img : String) (oi : Nat) : RecordModel :=
  { session_id := sid, image_id := img, answer := "yes",
    order_index := some oi, elapsed_ms_item := none,
    elapsed_ms_global := none, skipped := false, item_timeout := false,
    ts_server := 0, ts_client := none, user_agent := none, ip_hash := none,
    subset_id := some "s", stage_index := some 0, mode_id := some "m" }

/-- A well-formed export fixture: two sessions (the later one first) and
three records. -/
def exDbExport : Db :=
  { sessions := [exExpSession "e1" 200, exExpSession "e2" 100], items := [],
    records := [exExpRecord "e1" "a" 0, exExpRecord "e2" "b" 1,
      exExpRecord "e2" "c" 0] }

/-- Concrete instantiation of the C9 theorem on the export fixture, with the
group filter "g" on the export and no filter on the snapshot query. -/
theorem export_rows_one_per_matching_record_and_sorted_witness :
    ((export_csv_rows exDbExport (some "g") none none).map Prod.fst).Perm
        (exDbExport.records.filter (record_matches exDbExport (some "g") none none))
    ∧ (export_csv_rows exDbExport (some "g") none none).length
        = (exDbExport.records.filter
            (record_matches exDbExport (some "g") none none)).length
    ∧ List.Sorted export_le (export_csv_rows exDbExport (some "g") none none)
    ∧ List.Sorted export_le (iter_records_rows exDbExport none none none) :=
  export_rows_one_per_matching_record_and_sorted exDbExport (some "g") none
    none none none none ⟨by decide, by decide⟩

end HumanAI
